import Mathlib

/-!
Verification development for the ART AOT-compilation transaction system.

Embedded sources:
- `runtime/transaction.h` (class `Transaction`, its `ObjectLog` / `ArrayLog`
  nested classes and their data members);
- `runtime/oat/aot_class_linker.{h,cc}` (`AotClassLinker` transaction stack
  management, constraint wrappers and the abort protocol);
- `runtime/interpreter/interpreter_switch_impl0.cc` (`InactiveTransactionChecker`)
  and `runtime/interpreter/interpreter_switch_impl1.cc` /
  `runtime/interpreter/active_transaction_checker.h` (`ActiveTransactionChecker`).

The bodies of the `Transaction` member functions live in `runtime/transaction.cc`,
which is not part of the excerpted sources; where such a body is needed it is
modelled from the specification and the declarations of `transaction.h`, and the
definition's doc comment says so explicitly.

Modelling conventions: objects, arrays and field offsets are identified by `Nat`;
raw `uint64_t` payloads are `Nat` (the log only stores and restores them, no
arithmetic is performed on them); the two heaps (object fields, array elements)
are total functions `Nat → Nat → Nat`; C++ maps (`ScopedArenaSafeMap`) are
association lists with unique keys manipulated through `lookupA` / `storeA`.
-/

namespace ArtTx

/-- Object-field heap: object identity and field byte-offset to raw value. -/
abbrev Heap := Nat → Nat → Nat

/-- Functional update of a heap cell. -/
def writeHeap (h : Heap) (obj off v : Nat) : Heap :=
  fun o x => if o = obj ∧ x = off then v else h o x

/-- Lookup in an association list with `Nat` keys; models `SafeMap::find`. -/
def lookupA {β : Type} : List (Nat × β) → Nat → Option β
  | [], _ => none
  | (k, v) :: rest, key => if k = key then some v else lookupA rest key

/-- Store a binding, replacing an existing binding for the same key; models the
store-back of a `SafeMap::GetOrCreateWith` followed by an in-place mutation. -/
def storeA {β : Type} : List (Nat × β) → Nat → β → List (Nat × β)
  | [], key, v => [(key, v)]
  | (k, w) :: rest, key, v =>
      if k = key then (key, v) :: rest else (k, w) :: storeA rest key v

/-- Field value kinds, `Transaction::ObjectLog::FieldValueKind`
(transaction.h:196-204). -/
inductive FieldValueKind where
  | kBoolean
  | kByte
  | kChar
  | kShort
  | k32Bits
  | k64Bits
  | kReference
deriving DecidableEq

/-- Tagged prior-value record, `Transaction::ObjectLog::FieldValue`
(transaction.h:205-216). -/
structure FieldValue where
  value : Nat
  kind : FieldValueKind
  is_volatile : Bool
deriving DecidableEq

/-- Per-object mutation log, `Transaction::ObjectLog` (transaction.h:164-231).
The field store is declared in the source as
`ScopedArenaSafeMap<uint32_t, FieldValue> field_values_` with the comment
"Maps field's offset to its value": a map keyed by the field offset, holding at
most one record per offset. -/
structure ObjectLog where
  is_new_object : Bool
  field_values : List (Nat × FieldValue)
deriving DecidableEq

/-- Fresh object log, `ObjectLog(allocator)` (transaction.h:190-192). -/
def ObjectLog.emptyLog : ObjectLog := ⟨false, []⟩

/-- Size accessor, `ObjectLog::Size` (transaction.h:177-179). -/
def ObjectLog.size (l : ObjectLog) : Nat := l.field_values.length

/-- Flag setter, `ObjectLog::MarkAsNewObject` (transaction.h:181-184). The
source guards the call with `DCHECK(field_values_.empty())`; in a release build
the flag is set unconditionally, which is what this definition does, and the
emptiness precondition is carried as a hypothesis where needed. -/
def ObjectLog.markAsNewObject (l : ObjectLog) : ObjectLog :=
  { l with is_new_object := true }

/-- Modelled from the spec: the body of `Transaction::ObjectLog::LogValue` is in
transaction.cc, outside the excerpt. The declared storage (transaction.h:228) is
a map keyed by the field offset, so a write can only create a record when the
offset has none yet; the spec's write-then-rollback-restores-exactly property
(spec §8) forces the retained record to be the pre-image supplied by the first
write, so a later write to an already-logged offset leaves the map unchanged.
Logs flagged as new objects keep no records (spec §3, new-object exemption). -/
def ObjectLog.logValue (l : ObjectLog) (kind : FieldValueKind) (off value : Nat)
    (vol : Bool) : ObjectLog :=
  if l.is_new_object then l
  else
    match lookupA l.field_values off with
    | some _ => l
    | none => { l with field_values := l.field_values ++ [(off, ⟨value, kind, vol⟩)] }

/-- Modelled from the spec: `ObjectLog::Undo` (transaction.cc outside the
excerpt) writes each recorded pre-image back into the object's field. -/
def ObjectLog.undo (l : ObjectLog) (obj : Nat) (h : Heap) : Heap :=
  l.field_values.foldl (fun h p => writeHeap h obj p.1 p.2.value) h

/-- Per-array mutation log, `Transaction::ArrayLog` (transaction.h:233-273);
`array_values_` is a `ScopedArenaSafeMap<size_t, uint64_t>` keyed by element
index ("Maps index to value"). -/
structure ArrayLog where
  is_new_array : Bool
  array_values : List (Nat × Nat)
deriving DecidableEq

/-- Fresh array log, `ArrayLog(allocator)` (transaction.h:252-254). -/
def ArrayLog.emptyLog : ArrayLog := ⟨false, []⟩

/-- Size accessor, `ArrayLog::Size` (transaction.h:239-241). -/
def ArrayLog.size (l : ArrayLog) : Nat := l.array_values.length

/-- Flag setter, `ArrayLog::MarkAsNewArray` (transaction.h:243-246); same
release-build semantics as `ObjectLog.markAsNewObject`. -/
def ArrayLog.markAsNewArray (l : ArrayLog) : ArrayLog :=
  { l with is_new_array := true }

/-- Modelled from the spec: `ArrayLog::LogValue` (transaction.cc outside the
excerpt); map keyed by index, first write per index records the pre-image. -/
def ArrayLog.logValue (l : ArrayLog) (idx value : Nat) : ArrayLog :=
  if l.is_new_array then l
  else
    match lookupA l.array_values idx with
    | some _ => l
    | none => { l with array_values := l.array_values ++ [(idx, value)] }

/-- Modelled from the spec: `ArrayLog::Undo` (transaction.cc outside the
excerpt) writes each recorded pre-image back into the array. -/
def ArrayLog.undo (l : ArrayLog) (arrId : Nat) (ah : Heap) : Heap :=
  l.array_values.foldl (fun ah p => writeHeap ah arrId p.1 p.2) ah

/-- One nesting level of the transaction system, class `Transaction`
(transaction.h:47-388). The intern-string and dex-cache resolution logs are not
needed by any claim and are omitted; the arena plumbing is memory management
with no observable effect on the logged values. -/
structure Transaction where
  object_logs : List (Nat × ObjectLog)
  array_logs : List (Nat × ArrayLog)
  aborted : Bool
  rolling_back : Bool
  strict : Bool
  abort_message : String
  root : Option Nat
deriving DecidableEq

/-- Freshly constructed transaction, `Transaction::Transaction(strict, root, ...)`:
empty logs, not aborted, not rolling back. -/
def Transaction.fresh (strict : Bool) (root : Option Nat) : Transaction :=
  { object_logs := []
    array_logs := []
    aborted := false
    rolling_back := false
    strict := strict
    abort_message := ""
    root := root }

/-- Modelled from the spec: `Transaction::Abort` (spec §4.3, transaction.cc
outside the excerpt): set the aborted flag and record the first abort message
only; later aborts of the same transaction keep the first message. -/
def Transaction.abort (tx : Transaction) (msg : String) : Transaction :=
  if tx.aborted then tx else { tx with aborted := true, abort_message := msg }

/-- Record an object field change: the common core of the seven
`Transaction::RecordWriteField{Boolean,Byte,Char,Short,32,64,Reference}`
entry points (transaction.h:96-123), each of which forwards to
`ObjectLog::LogValue` with its own `FieldValueKind` tag (bodies in
transaction.cc, outside the excerpt; modelled from the spec). -/
def Transaction.recordWriteField (tx : Transaction) (obj : Nat)
    (kind : FieldValueKind) (off value : Nat) (vol : Bool) : Transaction :=
  let log := (lookupA tx.object_logs obj).getD ObjectLog.emptyLog
  { tx with object_logs := storeA tx.object_logs obj (log.logValue kind off value vol) }

/-- Record an array element change, `Transaction::RecordWriteArray`
(transaction.h:126; body in transaction.cc, modelled from the spec). -/
def Transaction.recordWriteArray (tx : Transaction) (arrId idx value : Nat) :
    Transaction :=
  let log := (lookupA tx.array_logs arrId).getD ArrayLog.emptyLog
  { tx with array_logs := storeA tx.array_logs arrId (log.logValue idx value) }

/-- Record a newly allocated object, `Transaction::RecordNewObject`
(transaction.h:85-86; body in transaction.cc, modelled from the spec): the
object's log is created if needed and flagged as a new object. -/
def Transaction.recordNewObject (tx : Transaction) (obj : Nat) : Transaction :=
  let log := (lookupA tx.object_logs obj).getD ObjectLog.emptyLog
  { tx with object_logs := storeA tx.object_logs obj log.markAsNewObject }

/-- Record a newly allocated array, `Transaction::RecordNewArray`
(transaction.h:87-88; body in transaction.cc, modelled from the spec). -/
def Transaction.recordNewArray (tx : Transaction) (arrId : Nat) : Transaction :=
  let log := (lookupA tx.array_logs arrId).getD ArrayLog.emptyLog
  { tx with array_logs := storeA tx.array_logs arrId log.markAsNewArray }

/-- Modelled from the spec: the needs-transaction-records test (declared as
`ObjectNeedsTransactionRecords` / `ArrayNeedsTransactionRecords` in
transaction.h:90-93, body in transaction.cc outside the excerpt): an array
allocated inside the current transaction — its log flagged as new — does not
need transaction records. -/
def Transaction.needsTransactionRecords (tx : Transaction) (arrId : Nat) : Bool :=
  !(((lookupA tx.array_logs arrId).getD ArrayLog.emptyLog).is_new_array)

/-- Modelled from the spec: heap undo replay of `Transaction::Rollback`
(spec §4.1, transaction.cc outside the excerpt): first all array mutations,
then all object field mutations, each entity's pre-images written back; logs
flagged as new objects/arrays are skipped entirely. The first component is the
object-field heap, the second the array-element heap. -/
def Transaction.rollback (tx : Transaction) (h : Heap) (ah : Heap) : Heap × Heap :=
  let ah' := tx.array_logs.foldl
      (fun ah p => if p.2.is_new_array then ah else ArrayLog.undo p.2 p.1 ah) ah
  let h' := tx.object_logs.foldl
      (fun h p => if p.2.is_new_object then h else ObjectLog.undo p.2 p.1 h) h
  (h', ah')

/-- State-side effect of `Transaction::Rollback`: the transaction sets its
`rolling_back_` flag when it starts rolling back (transaction.h:64-68). -/
def Transaction.rollbackTx (tx : Transaction) : Transaction :=
  { tx with rolling_back := true }

/-- Heap object as seen by the constraint predicates: its identity, the heap
collaborator's boot-image-membership answer (`ObjectIsInBootImageSpace`),
whether it is a class object, the opaque app-image/boot-image partition
predicate's answer for it (spec §4.2 open question), the pretty descriptor of
its class and its own pretty type name. -/
structure Obj where
  id : Nat
  inBootImageSpace : Bool
  isClass : Bool
  canReferenceDisallowed : Bool
  classPrettyDescriptor : String
  prettyTypeOf : String
deriving DecidableEq

/-- Class object as seen by the allocation constraint: the finalizable bit and
the pretty descriptor. -/
structure ClassObj where
  finalizable : Bool
  prettyDescriptor : String
deriving DecidableEq

/-- Modelled from the spec: `Transaction::WriteConstraint` (declared
transaction.h:157-158, body in transaction.cc outside the excerpt): "true
(disallow) iff obj is boot-image-resident" (spec §4.2). -/
def Transaction.writeConstraint (tx : Transaction) (obj : Obj) : Bool :=
  obj.inBootImageSpace

/-- Modelled from the spec: `Transaction::WriteValueConstraint` (declared
transaction.h:160-161, body outside the excerpt): disallow iff the opaque
partition predicate rejects the value (spec §4.2 treats it as an external
collaborator predicate). -/
def Transaction.writeValueConstraint (tx : Transaction) (value : Obj) : Bool :=
  value.canReferenceDisallowed

/-- Modelled from the spec: `Transaction::ReadConstraint` (declared
transaction.h:154-155, body outside the excerpt): in strict mode, disallow
reading a class object other than the class whose initialization opened the
transaction (spec §4.2). -/
def Transaction.readConstraint (tx : Transaction) (obj : Obj) : Bool :=
  tx.strict && obj.isClass && !(tx.root == some obj.id)

/-- Interpreter thread, reduced to its pending-exception slot; throwing the
transaction-abort error stores the carried message here. -/
structure Thread where
  exception : Option String
deriving DecidableEq

/-- State of the `AotClassLinker` transaction machinery:
`preinitialization_transactions_` (aot_class_linker.h:174, innermost first) and
the process-wide cached active-transaction flag toggled through
`Runtime::SetActiveTransaction` / `ClearActiveTransaction` (the `Runtime` class
is outside the excerpt; the flag is modelled as the boolean those two setters
and `Runtime::IsActiveTransaction` maintain). -/
structure LinkerState where
  transactions : List Transaction
  active_flag : Bool
deriving DecidableEq

/-- Result of `AotClassLinker::IsActiveTransaction` (aot_class_linker.cc:260-264):
it returns the cached runtime flag. -/
def LinkerState.isActiveTransaction (s : LinkerState) : Bool := s.active_flag

/-- Truth the source's DCHECK in `IsActiveTransaction` compares the flag
against: stack non-empty and innermost transaction not mid-rollback. -/
def LinkerState.stackSaysActive (s : LinkerState) : Bool :=
  match s.transactions with
  | [] => false
  | tx :: _ => !tx.rolling_back

/-- Lifecycle calls of the nested transaction stack (aot_class_linker.cc). -/
inductive TxOp where
  | enter (strict : Bool) (root : Option Nat)
  | exitMode
  | rollbackAndExitMode
deriving DecidableEq

/-- One lifecycle call (aot_class_linker.cc:266-317).
`enter` models `EnterTransactionMode`: push a fresh transaction (the arena
handoff and `MakeInitializedClassesVisiblyInitialized` calls have no effect on
the modelled state) and `SetActiveTransaction`.
`exitMode` models `ExitTransactionMode`: pop, and `ClearActiveTransaction` when
this empties the stack.
`rollbackAndExitMode` models `RollbackAndExitTransactionMode`:
`ClearActiveTransaction`, roll back the front transaction, pop it, and
`SetActiveTransaction` again when the stack is still non-empty.
Calling `exitMode`/`rollbackAndExitMode` with an empty stack fails the source's
`DCHECK(IsActiveTransaction())` (a process abort); such a call is modelled as
leaving the state unchanged. -/
def execOp (s : LinkerState) : TxOp → LinkerState
  | .enter strict root =>
      { transactions := Transaction.fresh strict root :: s.transactions
        active_flag := true }
  | .exitMode =>
      match s.transactions with
      | [] => s
      | _ :: rest =>
          { transactions := rest
            active_flag := if rest.isEmpty then false else s.active_flag }
  | .rollbackAndExitMode =>
      match s.transactions with
      | [] => s
      | tx :: rest =>
          let _ := tx.rollbackTx
          { transactions := rest
            active_flag := !rest.isEmpty }

/-- Initial state: no transactions, flag clear. -/
def initLinkerState : LinkerState := ⟨[], false⟩

/-- Run a sequence of lifecycle calls from the initial state. -/
def runOps (ops : List TxOp) : LinkerState :=
  ops.foldl execOp initLinkerState

/-- Apostrophe character as a string, used to build the abort messages. -/
def apos : String := String.singleton (Char.ofNat 39)

/-- Formatted message of `TransactionWriteConstraint`,
`"Can't set fields of %s%s"` (aot_class_linker.cc:338-340). -/
def cantSetFieldsMsg (extra pretty : String) : String :=
  "Can" ++ apos ++ "t set fields of " ++ extra ++ pretty

/-- Formatted message of `TransactionWriteValueConstraint`,
`"Can't store reference to %s %s"` (aot_class_linker.cc:352-353). -/
def cantStoreReferenceMsg (description descriptor : String) : String :=
  "Can" ++ apos ++ "t store reference to " ++ description ++ " " ++ descriptor

/-- Formatted message of `TransactionReadConstraint` (aot_class_linker.cc:362-364). -/
def cantReadStaticFieldsMsg (pretty : String) : String :=
  "Can" ++ apos ++ "t read static fields of " ++ pretty ++
    " since it does not belong to clinit" ++ apos ++ "s class."

/-- Formatted message of `TransactionAllocationConstraint`
(aot_class_linker.cc:373-375). -/
def allocFinalizableMsg (descriptor : String) : String :=
  "Allocating finalizable object in transaction: " ++ descriptor

/-- Message of `CanAllocClass` (aot_class_linker.cc:42). -/
def cantResolveTypeMsg : String :=
  "Can" ++ apos ++ "t resolve type within transaction."

/-- Abort-and-throw helper `AotClassLinker::AbortTransactionF` /
`AbortTransactionV` (aot_class_linker.cc:480-501): build the message, record it
on the innermost transaction via `Transaction::Abort` (first abort wins) and
throw the transaction-abort error carrying the freshly built message. The
source's `CHECK(IsActiveTransaction())` with an empty stack is a process abort,
modelled as leaving the state unchanged. -/
def abortTransactionF (s : LinkerState) (t : Thread) (msg : String) :
    LinkerState × Thread :=
  match s.transactions with
  | [] => (s, t)
  | tx :: rest =>
      ({ s with transactions := tx.abort msg :: rest }, { exception := some msg })

/-- Query `AotClassLinker::IsTransactionAborted` (aot_class_linker.cc:503-506):
the innermost transaction's aborted flag. -/
def isTransactionAborted (s : LinkerState) : Bool :=
  match s.transactions with
  | [] => false
  | tx :: _ => tx.aborted

/-- Constraint wrapper `AotClassLinker::TransactionWriteConstraint`
(aot_class_linker.cc:333-344): consult the innermost transaction's
`WriteConstraint`; on disallow, abort with the formatted message whose `extra`
part is `"boot image "` exactly when the heap says the object is
boot-image-resident, and return true; otherwise return false and mutate
nothing. The same body is inlined as `ActiveTransactionChecker::WriteConstraint`
in active_transaction_checker.h:33-45. -/
def transactionWriteConstraint (s : LinkerState) (t : Thread) (obj : Obj) :
    Bool × LinkerState × Thread :=
  match s.transactions with
  | [] => (false, s, t)
  | tx :: _ =>
      if tx.writeConstraint obj then
        let extra := if obj.inBootImageSpace then "boot image " else ""
        let p := abortTransactionF s t (cantSetFieldsMsg extra obj.prettyTypeOf)
        (true, p.1, p.2)
      else (false, s, t)

/-- Constraint wrapper `AotClassLinker::TransactionWriteValueConstraint`
(aot_class_linker.cc:346-357). -/
def transactionWriteValueConstraint (s : LinkerState) (t : Thread) (value : Obj) :
    Bool × LinkerState × Thread :=
  match s.transactions with
  | [] => (false, s, t)
  | tx :: _ =>
      if tx.writeValueConstraint value then
        let description := if value.isClass then "class" else "instance of"
        let p := abortTransactionF s t
            (cantStoreReferenceMsg description value.classPrettyDescriptor)
        (true, p.1, p.2)
      else (false, s, t)

/-- Constraint wrapper `AotClassLinker::TransactionReadConstraint`
(aot_class_linker.cc:359-368). -/
def transactionReadConstraint (s : LinkerState) (t : Thread) (obj : Obj) :
    Bool × LinkerState × Thread :=
  match s.transactions with
  | [] => (false, s, t)
  | tx :: _ =>
      if tx.readConstraint obj then
        let p := abortTransactionF s t (cantReadStaticFieldsMsg obj.prettyTypeOf)
        (true, p.1, p.2)
      else (false, s, t)

/-- Constraint wrapper `AotClassLinker::TransactionAllocationConstraint`
(aot_class_linker.cc:370-379): disallow exactly the finalizable classes,
aborting with a message naming the class; the identical body is
`ActiveTransactionChecker::AllocationConstraint`
(active_transaction_checker.h:75-84). The check performs no allocation: it only
reads the class flag and, on disallow, records the abort. -/
def transactionAllocationConstraint (s : LinkerState) (t : Thread)
    (klass : ClassObj) : Bool × LinkerState × Thread :=
  if klass.finalizable then
    let p := abortTransactionF s t (allocFinalizableMsg klass.prettyDescriptor)
    (true, p.1, p.2)
  else (false, s, t)

/-- Override `AotClassLinker::CanAllocClass` (aot_class_linker.cc:39-46):
inside an active transaction, abort with the fixed message and return false;
otherwise defer to the base class linker, whose result is the `base` argument
(`ClassLinker::CanAllocClass` is outside the excerpt). -/
def canAllocClass (s : LinkerState) (t : Thread) (base : Bool) :
    Bool × LinkerState × Thread :=
  if s.active_flag then
    let p := abortTransactionF s t cantResolveTypeMsg
    (false, p.1, p.2)
  else (base, s, t)

/-- Primitive array as seen by `RecordArrayElementsInTransaction`: identity,
length, and element values (`GetWithoutChecks`). -/
structure ArrObj where
  id : Nat
  length : Nat
  elems : List Nat
deriving DecidableEq

/-- Element-recording loop `RecordArrayElementsInTransactionImpl`
(interpreter_switch_impl1.cc:69-77): record the current value of each element
below `count`. -/
def recordArrayElementsImpl (tx : Transaction) (arr : ArrObj) (count : Nat) :
    Transaction :=
  (List.range count).foldl
    (fun tx i => tx.recordWriteArray arr.id i (arr.elems.getD i 0)) tx

/-- Checker operation `ActiveTransactionChecker::RecordArrayElementsInTransaction`
(interpreter_switch_impl1.cc:79-126): a null array reference returns at once
(the interpreter will throw the NPE) without touching the array or the logs; an
array that does not need transaction records is likewise skipped; otherwise the
elements below `count` are recorded, whatever the primitive component type (the
source's eight per-type branches all run the same loop). An empty transaction
stack fails the source's DCHECK and is modelled as no change. -/
def recordArrayElementsInTransaction (s : LinkerState) (array : Option ArrObj)
    (count : Nat) : LinkerState :=
  match array with
  | none => s
  | some arr =>
      match s.transactions with
      | [] => s
      | tx :: rest =>
          if tx.needsTransactionRecords arr.id then
            { s with transactions := recordArrayElementsImpl tx arr count :: rest }
          else s

/-- Operation set shared by the two build-time-selected interpreter
constraint-checker implementations (spec §4.5): `WriteConstraint`,
`WriteValueConstraint`, `ReadConstraint`, `AllocationConstraint`,
`IsTransactionAborted`, `RecordArrayElementsInTransaction`. Both checkers below
are values of this one structure type, which is the "identical operation set"
of the dual implementation strategy. -/
structure TransactionCheckerOps where
  writeConstraint : LinkerState → Thread → Obj → Bool × LinkerState × Thread
  writeValueConstraint : LinkerState → Thread → Obj → Bool × LinkerState × Thread
  readConstraint : LinkerState → Thread → Obj → Bool × LinkerState × Thread
  allocationConstraint : LinkerState → Thread → ClassObj → Bool × LinkerState × Thread
  isTransactionAborted : LinkerState → Bool
  recordArrayElementsInTransaction : LinkerState → Option ArrObj → Nat → LinkerState

/-- No-transaction interpreter checker `InactiveTransactionChecker`
(interpreter_switch_impl0.cc:26-65): every predicate returns false and the
record operation does nothing. -/
def InactiveTransactionChecker : TransactionCheckerOps where
  writeConstraint := fun s t _ => (false, s, t)
  writeValueConstraint := fun s t _ => (false, s, t)
  readConstraint := fun s t _ => (false, s, t)
  allocationConstraint := fun s t _ => (false, s, t)
  isTransactionAborted := fun _ => false
  recordArrayElementsInTransaction := fun s _ _ => s

/-- Transaction-aware interpreter checker `ActiveTransactionChecker`
(interpreter_switch_impl1.cc:28-66, active_transaction_checker.h): every
operation forwards to the real `AotClassLinker` transaction machinery. -/
def ActiveTransactionChecker : TransactionCheckerOps where
  writeConstraint := transactionWriteConstraint
  writeValueConstraint := transactionWriteValueConstraint
  readConstraint := transactionReadConstraint
  allocationConstraint := transactionAllocationConstraint
  isTransactionAborted := isTransactionAborted
  recordArrayElementsInTransaction := recordArrayElementsInTransaction

/-- One interpreter-side field write inside a transaction, per the interpreter
collaborator contract (spec §6): the matching `RecordWriteField*` is called
with exactly the pre-image value of the field, and the new value is stored. -/
structure FieldWrite where
  kind : FieldValueKind
  vol : Bool
  newValue : Nat
deriving DecidableEq

/-- Modelled from the spec: a permitted field write (spec §6) records the
current field value through `Transaction.recordWriteField` and then updates the
heap cell. -/
def writeFieldTransactional (obj off : Nat) (st : Transaction × Heap)
    (w : FieldWrite) : Transaction × Heap :=
  (st.1.recordWriteField obj w.kind off (st.2 obj off) w.vol,
   writeHeap st.2 obj off w.newValue)

/-- Run a sequence of transactional writes, all to the same object and field
offset. -/
def runWrites (obj off : Nat) (st : Transaction × Heap) (ws : List FieldWrite) :
    Transaction × Heap :=
  ws.foldl (writeFieldTransactional obj off) st

/-- One call to a `Transaction::RecordWriteField*` entry point: the kind tag
selecting the entry point, the field offset, the recorded value and the
volatility bit. -/
structure RecordedWrite where
  kind : FieldValueKind
  off : Nat
  value : Nat
  vol : Bool
deriving DecidableEq

/-- Apply a sequence of `RecordWriteField*` calls to one object. -/
def applyRecordedWrites (tx : Transaction) (obj : Nat)
    (ws : List RecordedWrite) : Transaction :=
  ws.foldl (fun tx w => tx.recordWriteField obj w.kind w.off w.value w.vol) tx

/-- Substring containment on the underlying character lists, used to state that
an abort message carries a required fragment. -/
def containsSub (s pat : String) : Prop :=
  ∃ pre post : List Char, s.data = pre ++ pat.data ++ post

/-- Invariant of the transaction-stack bookkeeping: the cached flag equals the
stack's non-emptiness, and no transaction sitting on the stack is mid-rollback
(a rollback happens entirely inside `rollbackAndExitMode`, which pops the
rolled-back transaction before returning). -/
def txInvariant (s : LinkerState) : Prop :=
  s.active_flag = !s.transactions.isEmpty ∧
    ∀ tx ∈ s.transactions, tx.rolling_back = false

/-- Two recorded writes to the same field offset (offset 4 of object 0) inside
a fresh transaction, with distinct recorded values. -/
def twoWritesSameOffset : Transaction :=
  ((Transaction.fresh false none).recordWriteField 0 .k32Bits 4 7 false).recordWriteField
    0 .k32Bits 4 9 false

/-- Aborting always leaves the aborted flag set, whether or not the transaction
was already aborted (first-abort-wins only affects the message). -/
lemma abort_sets_aborted (tx : Transaction) (msg : String) :
    (tx.abort msg).aborted = true := by
  unfold Transaction.abort
  by_cases h : tx.aborted <;> simp [h]

/-- Each lifecycle call preserves the stack/flag invariant. -/
lemma execOp_preserves (s : LinkerState) (op : TxOp) (h : txInvariant s) :
    txInvariant (execOp s op) := by
  obtain ⟨hflag, hroll⟩ := h
  cases op with
  | enter strict root =>
      refine ⟨by simp [execOp], ?_⟩
      intro tx htx
      simp only [execOp, List.mem_cons] at htx
      rcases htx with h1 | h2
      · simp [h1, Transaction.fresh]
      · exact hroll tx h2
  | exitMode =>
      cases hs : s.transactions with
      | nil => exact ⟨by simp [execOp, hs, hs ▸ hflag], by simp [execOp, hs]⟩
      | cons hd tl =>
          have hflag' : s.active_flag = true := by simp [hflag, hs]
          refine ⟨?_, ?_⟩
          · simp only [execOp, hs, hflag']
            cases tl.isEmpty <;> simp
          · intro tx htx
            simp only [execOp, hs] at htx
            exact hroll tx (by simp [hs, htx])
  | rollbackAndExitMode =>
      cases hs : s.transactions with
      | nil => exact ⟨by simp [execOp, hs, hs ▸ hflag], by simp [execOp, hs]⟩
      | cons hd tl =>
          refine ⟨by simp [execOp, hs], ?_⟩
          intro tx htx
          simp only [execOp, hs] at htx
          exact hroll tx (by simp [hs, htx])

/-- Folding lifecycle calls preserves the stack/flag invariant. -/
lemma foldl_execOp_preserves (ops : List TxOp) :
    ∀ s, txInvariant s → txInvariant (ops.foldl execOp s) := by
  induction ops with
  | nil => intro s h; exact h
  | cons op ops ih => intro s h; exact ih _ (execOp_preserves s op h)

/-- C4: at every point in any sequence of EnterTransactionMode /
ExitTransactionMode / RollbackAndExitTransactionMode calls, the cached
active-transaction flag returned by `IsActiveTransaction` agrees with the stack
truth: it is true exactly when the transaction stack is non-empty and the
innermost transaction is not mid-rollback. -/
theorem active_transaction_flag_matches_stack (ops : List TxOp) :
    (runOps ops).isActiveTransaction = (runOps ops).stackSaysActive := by
  have hinv : txInvariant (runOps ops) := by
    refine foldl_execOp_preserves ops initLinkerState ⟨rfl, ?_⟩
    intro tx htx
    simp [initLinkerState] at htx
  obtain ⟨hflag, hroll⟩ := hinv
  cases hs : (runOps ops).transactions with
  | nil =>
      simp [LinkerState.isActiveTransaction, LinkerState.stackSaysActive, hs, hs ▸ hflag]
  | cons hd tl =>
      have hhd : hd.rolling_back = false := hroll hd (by simp [hs])
      simp [LinkerState.isActiveTransaction, LinkerState.stackSaysActive, hs,
            hs ▸ hflag, hhd]

/-- C5: the active transaction's write-constraint predicate disallows a write
exactly when the target object is boot-image-resident, and the
`TransactionWriteConstraint` wrapper never disallows (and never mutates
anything) for an object outside the boot image. -/
theorem write_constraint_iff_boot_image :
    (∀ (tx : Transaction) (obj : Obj),
        tx.writeConstraint obj = obj.inBootImageSpace) ∧
    (∀ (tx : Transaction) (rest : List Transaction) (flag : Bool) (t : Thread)
        (id : Nat) (isCl cref : Bool) (cpd pretty : String),
        transactionWriteConstraint ⟨tx :: rest, flag⟩ t ⟨id, false, isCl, cref, cpd, pretty⟩
          = (false, ⟨tx :: rest, flag⟩, t)) := by
  refine ⟨fun tx obj => rfl, ?_⟩
  intro tx rest flag t id isCl cref cpd pretty
  simp [transactionWriteConstraint, Transaction.writeConstraint]

/-- C3: writing a field of a boot-image-resident object inside an active
transaction makes the write-constraint check return true, record the abort on
the innermost transaction (IsTransactionAborted is true immediately after) and
throw the abort error whose message contains "boot image"; when the check
returns false nothing is aborted and nothing is thrown. -/
theorem boot_image_write_constraint_aborts :
    (∀ (tx : Transaction) (rest : List Transaction) (flag : Bool) (t : Thread)
        (id : Nat) (isCl cref : Bool) (cpd pretty : String),
        transactionWriteConstraint ⟨tx :: rest, flag⟩ t ⟨id, true, isCl, cref, cpd, pretty⟩
          = (true,
             ⟨tx.abort (cantSetFieldsMsg "boot image " pretty) :: rest, flag⟩,
             ⟨some (cantSetFieldsMsg "boot image " pretty)⟩)) ∧
    (∀ (tx : Transaction) (rest : List Transaction) (flag : Bool) (t : Thread)
        (id : Nat) (isCl cref : Bool) (cpd pretty : String),
        isTransactionAborted
            (transactionWriteConstraint ⟨tx :: rest, flag⟩ t
              ⟨id, true, isCl, cref, cpd, pretty⟩).2.1 = true) ∧
    (∀ pretty : String, containsSub (cantSetFieldsMsg "boot image " pretty) "boot image") ∧
    (∀ (tx : Transaction) (rest : List Transaction) (flag : Bool) (t : Thread)
        (id : Nat) (isCl cref : Bool) (cpd pretty : String),
        transactionWriteConstraint ⟨tx :: rest, flag⟩ t ⟨id, false, isCl, cref, cpd, pretty⟩
          = (false, ⟨tx :: rest, flag⟩, t)) := by
  refine ⟨?_, ?_, ?_, ?_⟩
  · intro tx rest flag t id isCl cref cpd pretty
    simp [transactionWriteConstraint, Transaction.writeConstraint, abortTransactionF]
  · intro tx rest flag t id isCl cref cpd pretty
    simp [transactionWriteConstraint, Transaction.writeConstraint, abortTransactionF,
          isTransactionAborted, abort_sets_aborted]
  · intro pretty
    refine ⟨("Can" ++ apos ++ "t set fields of ").data, (" " ++ pretty).data, ?_⟩
    show (cantSetFieldsMsg "boot image " pretty).data = _
    simp only [cantSetFieldsMsg, apos, String.data_append]
    rfl
  · intro tx rest flag t id isCl cref cpd pretty
    simp [transactionWriteConstraint, Transaction.writeConstraint]

/-- C6: the allocation-constraint check returns true exactly for finalizable
classes; in the disallow case it records the abort (no allocation is performed
by the check itself) and throws with a message naming the finalizable class;
for a non-finalizable class it returns false and changes nothing. -/
theorem allocation_constraint_iff_finalizable :
    (∀ (s : LinkerState) (t : Thread) (klass : ClassObj),
        (transactionAllocationConstraint s t klass).1 = klass.finalizable) ∧
    (∀ (tx : Transaction) (rest : List Transaction) (flag : Bool) (t : Thread)
        (descriptor : String),
        transactionAllocationConstraint ⟨tx :: rest, flag⟩ t ⟨true, descriptor⟩
          = (true, ⟨tx.abort (allocFinalizableMsg descriptor) :: rest, flag⟩,
             ⟨some (allocFinalizableMsg descriptor)⟩)) ∧
    (∀ (tx : Transaction) (rest : List Transaction) (flag : Bool) (t : Thread)
        (descriptor : String),
        isTransactionAborted
            (transactionAllocationConstraint ⟨tx :: rest, flag⟩ t ⟨true, descriptor⟩).2.1
          = true) ∧
    (∀ descriptor : String, ∃ pre : String,
        allocFinalizableMsg descriptor = pre ++ descriptor) ∧
    (∀ (s : LinkerState) (t : Thread) (descriptor : String),
        transactionAllocationConstraint s t ⟨false, descriptor⟩ = (false, s, t)) := by
  refine ⟨?_, ?_, ?_, ?_, ?_⟩
  · intro s t klass
    cases h : klass.finalizable <;>
      simp [transactionAllocationConstraint, h, abortTransactionF]
  · intro tx rest flag t descriptor
    simp [transactionAllocationConstraint, abortTransactionF]
  · intro tx rest flag t descriptor
    simp [transactionAllocationConstraint, abortTransactionF, isTransactionAborted,
          abort_sets_aborted]
  · intro descriptor
    exact ⟨"Allocating finalizable object in transaction: ", rfl⟩
  · intro s t descriptor
    simp [transactionAllocationConstraint]

/-- C8: the two build-time-selected interpreter checkers implement the same
operation set — both `InactiveTransactionChecker` and
`ActiveTransactionChecker` are values of the single interface type
`TransactionCheckerOps` — the active one forwarding each operation to the real
transaction machinery, while every predicate of the inactive one returns false
for every input, changing nothing, and its record operation does nothing. -/
theorem checker_interface_and_inactive_no_op :
    (∀ (s : LinkerState) (t : Thread) (obj : Obj),
        InactiveTransactionChecker.writeConstraint s t obj = (false, s, t)) ∧
    (∀ (s : LinkerState) (t : Thread) (value : Obj),
        InactiveTransactionChecker.writeValueConstraint s t value = (false, s, t)) ∧
    (∀ (s : LinkerState) (t : Thread) (obj : Obj),
        InactiveTransactionChecker.readConstraint s t obj = (false, s, t)) ∧
    (∀ (s : LinkerState) (t : Thread) (klass : ClassObj),
        InactiveTransactionChecker.allocationConstraint s t klass = (false, s, t)) ∧
    (∀ s : LinkerState, InactiveTransactionChecker.isTransactionAborted s = false) ∧
    (∀ (s : LinkerState) (a : Option ArrObj) (c : Nat),
        InactiveTransactionChecker.recordArrayElementsInTransaction s a c = s) ∧
    ActiveTransactionChecker.writeConstraint = transactionWriteConstraint ∧
    ActiveTransactionChecker.writeValueConstraint = transactionWriteValueConstraint ∧
    ActiveTransactionChecker.readConstraint = transactionReadConstraint ∧
    ActiveTransactionChecker.allocationConstraint = transactionAllocationConstraint ∧
    ActiveTransactionChecker.isTransactionAborted = isTransactionAborted ∧
    ActiveTransactionChecker.recordArrayElementsInTransaction
      = recordArrayElementsInTransaction :=
  ⟨fun _ _ _ => rfl, fun _ _ _ => rfl, fun _ _ _ => rfl, fun _ _ _ => rfl,
   fun _ => rfl, fun _ _ _ => rfl, rfl, rfl, rfl, rfl, rfl, rfl⟩

/-- C9: with a transaction active, `CanAllocClass` aborts the innermost
transaction with the message "Can't resolve type within transaction."
(`cantResolveTypeMsg`), throws it, and returns false; with no active
transaction it returns the base class-linker result and changes nothing. -/
theorem can_alloc_class_within_transaction :
    (∀ (tx : Transaction) (rest : List Transaction) (t : Thread) (base : Bool),
        canAllocClass ⟨tx :: rest, true⟩ t base
          = (false, ⟨tx.abort cantResolveTypeMsg :: rest, true⟩,
             ⟨some cantResolveTypeMsg⟩)) ∧
    (∀ (tx : Transaction) (rest : List Transaction) (t : Thread) (base : Bool),
        isTransactionAborted (canAllocClass ⟨tx :: rest, true⟩ t base).2.1 = true) ∧
    (∀ (txs : List Transaction) (t : Thread) (base : Bool),
        canAllocClass ⟨txs, false⟩ t base = (base, ⟨txs, false⟩, t)) := by
  refine ⟨?_, ?_, ?_⟩
  · intro tx rest t base
    simp [canAllocClass, abortTransactionF]
  · intro tx rest t base
    simp [canAllocClass, abortTransactionF, isTransactionAborted, abort_sets_aborted]
  · intro txs t base
    simp [canAllocClass]

/-- C10: `RecordArrayElementsInTransaction` with a null array reference records
nothing and returns with the state unchanged (the array is never accessed),
and it likewise records nothing when the array does not need transaction
records. -/
theorem record_array_elements_skips_null_and_new :
    (∀ (s : LinkerState) (count : Nat),
        recordArrayElementsInTransaction s none count = s) ∧
    (∀ (tx : Transaction) (rest : List Transaction) (flag : Bool)
        (arr : ArrObj) (count : Nat),
        tx.needsTransactionRecords arr.id = false →
        recordArrayElementsInTransaction ⟨tx :: rest, flag⟩ (some arr) count
          = ⟨tx :: rest, flag⟩) := by
  refine ⟨fun s count => rfl, ?_⟩
  intro tx rest flag arr count h
  simp [recordArrayElementsInTransaction, h]

/-- Witness for C10 at a concrete input: an array recorded as newly allocated
inside the current transaction is skipped. -/
theorem record_array_elements_skips_null_and_new_witness :
    ((Transaction.fresh false none).recordNewArray 5).needsTransactionRecords 5 = false ∧
    recordArrayElementsInTransaction
        ⟨[(Transaction.fresh false none).recordNewArray 5], true⟩
        (some ⟨5, 3, [1, 2, 3]⟩) 3
      = ⟨[(Transaction.fresh false none).recordNewArray 5], true⟩ :=
  ⟨by decide,
   record_array_elements_skips_null_and_new.2
     ((Transaction.fresh false none).recordNewArray 5) [] true ⟨5, 3, [1, 2, 3]⟩ 3
     (by decide)⟩

/-- Looking a key up right after storing it yields the stored value. -/
lemma lookupA_storeA_self {β : Type} (l : List (Nat × β)) (k : Nat) (v : β) :
    lookupA (storeA l k v) k = some v := by
  induction l with
  | nil => simp [storeA, lookupA]
  | cons p rest ih =>
      obtain ⟨k', w⟩ := p
      by_cases h : k' = k
      · simp [storeA, h, lookupA]
      · simp [storeA, h, lookupA, ih]

/-- Storing back the value a key already maps to leaves the map unchanged. -/
lemma storeA_self {β : Type} (l : List (Nat × β)) (k : Nat) (v : β)
    (h : lookupA l k = some v) : storeA l k v = l := by
  induction l with
  | nil => simp [lookupA] at h
  | cons p rest ih =>
      obtain ⟨k', w⟩ := p
      by_cases hk : k' = k
      · subst hk
        simp [lookupA] at h
        simp [storeA, h]
      · simp only [lookupA, if_neg hk] at h
        simp [storeA, hk, ih h]

/-- A transactional write to an offset whose pre-image is already logged (and
whose object log is not a new-object log) changes the heap but not the
transaction. -/
lemma writeFieldTransactional_fixed (obj off : Nat) (tx : Transaction)
    (log : ObjectLog) (h : Heap) (w : FieldWrite)
    (hlog : lookupA tx.object_logs obj = some log)
    (hnew : log.is_new_object = false)
    (hoff : (lookupA log.field_values off).isSome = true) :
    writeFieldTransactional obj off (tx, h) w = (tx, writeHeap h obj off w.newValue) := by
  obtain ⟨fv, hfv⟩ := Option.isSome_iff_exists.mp hoff
  have hval : log.logValue w.kind off (h obj off) w.vol = log := by
    simp [ObjectLog.logValue, hnew, hfv]
  simp [writeFieldTransactional, Transaction.recordWriteField, hlog, hval,
        storeA_self _ _ _ hlog]

/-- Once the offset's pre-image is logged, any further sequence of writes to
that offset leaves the transaction unchanged. -/
lemma runWrites_fixed (obj off : Nat) (tx : Transaction) (log : ObjectLog)
    (hlog : lookupA tx.object_logs obj = some log)
    (hnew : log.is_new_object = false)
    (hoff : (lookupA log.field_values off).isSome = true) :
    ∀ (ws : List FieldWrite) (h : Heap), (runWrites obj off (tx, h) ws).1 = tx := by
  intro ws
  induction ws with
  | nil => intro h; rfl
  | cons w ws ih =>
      intro h
      have hstep : runWrites obj off (tx, h) (w :: ws)
          = runWrites obj off (tx, writeHeap h obj off w.newValue) ws := by
        unfold runWrites
        rw [List.foldl_cons,
            writeFieldTransactional_fixed obj off tx log h w hlog hnew hoff]
      rw [hstep]
      exact ih _

/-- The first transactional write from a fresh transaction creates the object
log with the single pre-image record for the written offset. -/
lemma first_write_from_fresh (strict : Bool) (root : Option Nat) (h0 : Heap)
    (obj off : Nat) (w : FieldWrite) :
    writeFieldTransactional obj off (Transaction.fresh strict root, h0) w
      = ({ Transaction.fresh strict root with
            object_logs := [(obj, ⟨false, [(off, ⟨h0 obj off, w.kind, w.vol⟩)]⟩)] },
         writeHeap h0 obj off w.newValue) := by
  simp [writeFieldTransactional, Transaction.recordWriteField, Transaction.fresh,
        lookupA, storeA, ObjectLog.logValue, ObjectLog.emptyLog]

/-- C1: for every sequence of at least one recorded field write to the same
object and offset performed inside a transaction on a pre-existing object,
Rollback restores the field to the value it held immediately before the
transaction began, regardless of the number of writes, their kinds, or the
intermediate values written. -/
theorem write_then_rollback_restores_exactly (strict : Bool) (root : Option Nat)
    (h0 ah0 : Heap) (obj off : Nat) (w : FieldWrite) (rest : List FieldWrite) :
    ((runWrites obj off (Transaction.fresh strict root, h0) (w :: rest)).1.rollback
        (runWrites obj off (Transaction.fresh strict root, h0) (w :: rest)).2 ah0).1 obj off
      = h0 obj off := by
  set txA : Transaction := { Transaction.fresh strict root with
      object_logs := [(obj, ⟨false, [(off, ⟨h0 obj off, w.kind, w.vol⟩)]⟩)] } with htxA
  have hcons : runWrites obj off (Transaction.fresh strict root, h0) (w :: rest)
      = runWrites obj off (txA, writeHeap h0 obj off w.newValue) rest := by
    unfold runWrites
    rw [List.foldl_cons, first_write_from_fresh]
  have hfst : (runWrites obj off (txA, writeHeap h0 obj off w.newValue) rest).1 = txA :=
    runWrites_fixed obj off txA ⟨false, [(off, ⟨h0 obj off, w.kind, w.vol⟩)]⟩
      (by simp [htxA, Transaction.fresh, lookupA]) rfl (by simp [lookupA]) rest _
  rw [hcons, hfst]
  simp [htxA, Transaction.rollback, Transaction.fresh, ObjectLog.undo, writeHeap]

/-- C2 counterexample: two recorded writes to the same offset leave a single
per-offset log entry, not two — the per-object log is a map keyed by offset,
not an insertion-ordered list of one entry per write. -/
theorem same_offset_two_writes_single_entry :
    ((lookupA twoWritesSameOffset.object_logs 0).getD ObjectLog.emptyLog).size = 1 ∧
    ((lookupA twoWritesSameOffset.object_logs 0).getD ObjectLog.emptyLog).size ≠ 2 := by
  decide

/-- C2 (amended): only the first recorded write to a given offset creates a log
entry; the per-object log holds exactly one entry per written offset, storing
the value recorded by the first write (the pre-transaction value), and later
writes to the same offset leave the log unchanged, so per-offset undo order is
immaterial. -/
theorem object_log_keeps_first_preimage (strict : Bool) (root : Option Nat)
    (h0 : Heap) (obj off : Nat) (w : FieldWrite) (rest : List FieldWrite) :
    (runWrites obj off (Transaction.fresh strict root, h0) (w :: rest)).1.object_logs
      = [(obj, ⟨false, [(off, ⟨h0 obj off, w.kind, w.vol⟩)]⟩)] := by
  set txA : Transaction := { Transaction.fresh strict root with
      object_logs := [(obj, ⟨false, [(off, ⟨h0 obj off, w.kind, w.vol⟩)]⟩)] } with htxA
  have hcons : runWrites obj off (Transaction.fresh strict root, h0) (w :: rest)
      = runWrites obj off (txA, writeHeap h0 obj off w.newValue) rest := by
    unfold runWrites
    rw [List.foldl_cons, first_write_from_fresh]
  have hfst : (runWrites obj off (txA, writeHeap h0 obj off w.newValue) rest).1 = txA :=
    runWrites_fixed obj off txA ⟨false, [(off, ⟨h0 obj off, w.kind, w.vol⟩)]⟩
      (by simp [htxA, Transaction.fresh, lookupA]) rfl (by simp [lookupA]) rest _
  rw [hcons, hfst]

/-- C7: marking an object as allocated within the transaction creates its log
with the new-object flag set and an empty field-value mapping, and the mapping
stays empty under any subsequent sequence of recorded field writes to that
object (its log size stays 0). -/
theorem new_object_log_remains_empty (tx : Transaction) (obj : Nat)
    (ws : List RecordedWrite) (hfreshObj : lookupA tx.object_logs obj = none) :
    lookupA (tx.recordNewObject obj).object_logs obj = some ⟨true, []⟩ ∧
    lookupA (applyRecordedWrites (tx.recordNewObject obj) obj ws).object_logs obj
      = some ⟨true, []⟩ ∧
    ((lookupA (applyRecordedWrites (tx.recordNewObject obj) obj ws).object_logs obj).getD
        ObjectLog.emptyLog).size = 0 := by
  have h1 : lookupA (tx.recordNewObject obj).object_logs obj = some ⟨true, []⟩ := by
    simp [Transaction.recordNewObject, hfreshObj, ObjectLog.emptyLog,
          ObjectLog.markAsNewObject, lookupA_storeA_self]
  have h2 : ∀ (ws : List RecordedWrite) (tx' : Transaction),
      lookupA tx'.object_logs obj = some ⟨true, []⟩ →
      lookupA (applyRecordedWrites tx' obj ws).object_logs obj = some ⟨true, []⟩ := by
    intro ws
    induction ws with
    | nil => intro tx' h; exact h
    | cons v vs ih =>
        intro tx' h
        have hstep :
            lookupA (tx'.recordWriteField obj v.kind v.off v.value v.vol).object_logs obj
              = some ⟨true, []⟩ := by
          simp [Transaction.recordWriteField, h, ObjectLog.logValue, lookupA_storeA_self]
        exact ih _ hstep
  refine ⟨h1, h2 ws _ h1, ?_⟩
  rw [h2 ws _ h1]
  rfl

/-- Witness for C7 at a concrete input: object 7, unknown to a fresh
transaction, marked new and then written twice. -/
theorem new_object_log_remains_empty_witness :
    lookupA (Transaction.fresh false none).object_logs 7 = none ∧
    lookupA (applyRecordedWrites ((Transaction.fresh false none).recordNewObject 7) 7
        [⟨FieldValueKind.k32Bits, 4, 9, false⟩, ⟨FieldValueKind.kByte, 4, 1, true⟩]).object_logs 7
      = some ⟨true, []⟩ :=
  ⟨by decide,
   (new_object_log_remains_empty (Transaction.fresh false none) 7
     [⟨FieldValueKind.k32Bits, 4, 9, false⟩, ⟨FieldValueKind.kByte, 4, 1, true⟩]
     (by decide)).2.1⟩

end ArtTx
